import Mathlib

/-!
Verification development for the Realtime Voice Session Manager of the
Patient Support System repository (src/services/geminiLiveService.ts).

The GeminiLiveService class is embedded shallowly:
* samples of an audio frame are rationals (the source works on Float32
  samples in [-1, 1]);
* time (the playback clock currentTime and the nextStartTime watermark)
  is a rational number of seconds, durations likewise;
* the mutable fields of the class (nextStartTime, sourceNodes,
  isAgentSpeaking, speakingWatchdog) together with the last status value
  reported through onStatusChange and the liveness of the surrounding
  resources (audio contexts, processor connection, transport, microphone
  track) form one explicit state record, and each callback of the class
  becomes a state-transition function.
-/

namespace GeminiLive

/-- The status values the service reports through onStatusChange.
The enum itself (VoiceState in types.ts) is not under src/; its
constructors are the five values used by geminiLiveService.ts. -/
inductive VoiceState where
  | CONNECTING
  | LISTENING
  | SPEAKING
  | ERROR
  | ENDED
deriving DecidableEq, Repr

/-- A decoded output audio buffer (AudioBuffer in the source): its
duration in seconds, plus a flag telling whether the stop call on the
source node built from it would throw (models the try/catch in
stopAllAudio). -/
structure Buffer where
  duration : ℚ
  stopFails : Bool
deriving DecidableEq, Repr

/-- An AudioBufferSourceNode held in the sourceNodes set: identified by a
creation counter, carrying the duration of its buffer and the
stop-failure flag. -/
structure Node where
  id : Nat
  duration : ℚ
  stopFails : Bool
deriving DecidableEq, Repr

/-- The pending speakingWatchdog timeout: which node armed it and its
delay in milliseconds. -/
structure Watchdog where
  nodeId : Nat
  delayMs : ℚ
deriving DecidableEq, Repr

/-- The state of one GeminiLiveService instance: the mutable fields of
the class, the last reported status, and the liveness of the resources
it touches.  outputCtx records whether outputAudioContext is non-null;
inputConnected whether the ScriptProcessorNode is still connected (so
onaudioprocess keeps firing); inputCtxOpen / outputCtxOpen whether the
two AudioContexts are open; transportOpen whether the live session
websocket is open; micLive whether the getUserMedia tracks are live. -/
structure ServiceState where
  nextStartTime : ℚ
  sourceNodes : List Node
  isAgentSpeaking : Bool
  speakingWatchdog : Option Watchdog
  status : VoiceState
  nextNodeId : Nat
  outputCtx : Bool
  inputConnected : Bool
  inputCtxOpen : Bool
  outputCtxOpen : Bool
  transportOpen : Bool
  micLive : Bool
deriving DecidableEq, Repr

/-! ## Capture pipeline (setupAudioInput, lines 222-253) -/

/-- Sum of squared samples: the loop `sum += inputData[i] * inputData[i]`. -/
def sumSq (f : List ℚ) : ℚ := (f.map (fun x => x * x)).sum

/-- Source line: const rms = Math.sqrt(sum / inputData.length). -/
noncomputable def rms (f : List ℚ) : ℝ :=
  Real.sqrt ((sumSq f : ℝ) / (f.length : ℝ))

/-- The value passed to onVolumeCallback: `Math.min(1, rms * 5)`,
computed from the frame before any ducking. -/
noncomputable def volumeOf (f : List ℚ) : ℝ := min 1 (rms f * 5)

/-- The ducking loop: when the agent is speaking every sample of the
outgoing frame is overwritten with 0.0; otherwise the frame is passed
through unchanged. -/
def duckedFrame (speaking : Bool) (f : List ℚ) : List ℚ :=
  if speaking then f.map (fun _ => 0) else f

/-- One onaudioprocess callback: report the volume of the original
(un-zeroed) samples, and hand the (possibly ducked) frame downstream to
float32ToInt16 / sendRealtimeInput.  The volume is computed before the
ducking loop runs, so it always reads the original samples. -/
noncomputable def onaudioprocess (speaking : Bool) (f : List ℚ) : ℝ × List ℚ :=
  (volumeOf f, duckedFrame speaking f)

/-- A run of capture callbacks: one volume report and one outgoing frame
per captured frame, the speaking flag re-read on every frame. -/
noncomputable def processFrames (l : List (Bool × List ℚ)) : List (ℝ × List ℚ) :=
  l.map (fun p => onaudioprocess p.1 p.2)

/-- Whether a captured frame is produced and sent at all, at the state
level: onaudioprocess fires exactly while the processor is connected to
an open input context.  Nothing in the handler consults the status, so
the frame is forwarded regardless of the reported TurnState. -/
def captureSend (st : ServiceState) (f : List ℚ) : Option (List ℚ) :=
  if st.inputConnected = true ∧ st.inputCtxOpen = true then
    some (duckedFrame st.isAgentSpeaking f)
  else none

/-! ## Tool dispatch (handleMessage, lines 261-295) -/

/-- The arguments of a sendPortalLink call (the declared schema requires
method and destination; logInteraction arguments flow only into the
onLogCallback and are not read by the dispatch itself). -/
structure ToolArgs where
  method : String
  destination : String
deriving DecidableEq, Repr

/-- One entry of message.toolCall.functionCalls. -/
structure FunctionCall where
  id : String
  name : String
  args : ToolArgs
deriving DecidableEq, Repr

/-- One functionResponses payload handed to session.sendToolResponse. -/
structure ToolResponse where
  id : String
  name : String
  result : String
deriving DecidableEq, Repr

/-- Whether the injected side-effect callbacks (onLogCallback,
onSendLinkCallback) throw when invoked.  The source calls them with no
try/catch, so a throw aborts the handleMessage body. -/
structure CallbackEnv where
  logCbFails : Bool
  sendLinkCbFails : Bool
deriving DecidableEq, Repr

/-- Handling of a single functionCall entry: the two if-branches of the
source.  A name that is neither logInteraction nor sendPortalLink falls
through both branches and produces no response; a throwing callback
raises before the matching sendToolResponse is scheduled. -/
def handleOne (env : CallbackEnv) (fc : FunctionCall) :
    Except Unit (Option ToolResponse) :=
  if fc.name = "logInteraction" then
    if env.logCbFails = true then Except.error ()
    else Except.ok (some ⟨fc.id, fc.name, "Interaction logged."⟩)
  else if fc.name = "sendPortalLink" then
    if env.sendLinkCbFails = true then Except.error ()
    else Except.ok (some ⟨fc.id, fc.name,
      "Success. Link sent to " ++ fc.args.destination ++ " via " ++ fc.args.method⟩)
  else Except.ok none

/-- The for-loop over functionCalls.  Returns the responses actually
sent and whether an uncaught exception escaped the loop: responses
scheduled before a throwing iteration are still sent, the throwing call
and all later calls get none. -/
def handleToolCalls (env : CallbackEnv) : List FunctionCall → List ToolResponse × Bool
  | [] => ([], false)
  | fc :: rest =>
    match handleOne env fc with
    | Except.error _ => ([], true)
    | Except.ok r =>
      let q := handleToolCalls env rest
      (r.toList ++ q.1, q.2)

/-! ## Playback scheduler (playAudio, lines 327-361) -/

/-- playAudio on a decoded buffer: replace the speakingWatchdog with a
fresh timeout of duration*1000 + 1000 milliseconds, add the new source
node to the set, start it at the watermark (bumped up to the current
clock if it has fallen behind), and advance the watermark by the buffer
duration.  Returns the updated state and the scheduled start time (none
when outputAudioContext is null and the body returns early). -/
def playAudio (now : ℚ) (b : Buffer) (st : ServiceState) :
    ServiceState × Option ℚ :=
  if st.outputCtx = false then (st, none)
  else
    let start := if st.nextStartTime < now then now else st.nextStartTime
    ({ st with
        speakingWatchdog := some ⟨st.nextNodeId, b.duration * 1000 + 1000⟩,
        sourceNodes := st.sourceNodes ++ [⟨st.nextNodeId, b.duration, b.stopFails⟩],
        nextNodeId := st.nextNodeId + 1,
        nextStartTime := start + b.duration }, some start)

/-- A run of playAudio calls, one per decoded inbound frame, each with
its own reading of the playback clock.  Returns the final state and the
list of (scheduled start, duration) pairs of the units scheduled. -/
def playSeq (st : ServiceState) : List (ℚ × Buffer) → ServiceState × List (ℚ × ℚ)
  | [] => (st, [])
  | (now, b) :: rest =>
    let p := playAudio now b st
    let q := playSeq p.1 rest
    (q.1, (match p.2 with | some s => [(s, b.duration)] | none => []) ++ q.2)

/-- The onended callback of a source node: remove the node from the set;
if the set became empty, clear the speaking flag, disarm the watchdog
and report LISTENING. -/
def handleEnded (nid : Nat) (st : ServiceState) : ServiceState :=
  let nodes := st.sourceNodes.filter (fun n => n.id ≠ nid)
  if nodes = [] then
    { st with sourceNodes := nodes, isAgentSpeaking := false,
              speakingWatchdog := none, status := VoiceState.LISTENING }
  else { st with sourceNodes := nodes }

/-- The speakingWatchdog timeout firing: if the agent is still believed
to be speaking, force the state back to LISTENING; either way the
one-shot timeout is now spent. -/
def watchdogFire (st : ServiceState) : ServiceState :=
  if st.isAgentSpeaking = true then
    { st with isAgentSpeaking := false, status := VoiceState.LISTENING,
              speakingWatchdog := none }
  else { st with speakingWatchdog := none }

/-! ## Cancellation (stopAllAudio, lines 363-373) -/

/-- node.stop(): throws exactly when the node is flagged as failing. -/
def stopNode (n : Node) : Except Unit Unit :=
  if n.stopFails = true then Except.error () else Except.ok ()

/-- The forEach over sourceNodes with `try { node.stop() } catch (e) { }`:
every node is visited, an error from one stop call is swallowed and the
iteration continues with the rest. -/
def stopNodesCaught : List Node → Except Unit Unit
  | [] => Except.ok ()
  | n :: rest =>
    match stopNode n with
    | Except.ok _ => stopNodesCaught rest
    | Except.error _ => stopNodesCaught rest

/-- stopAllAudio: early return when outputAudioContext is null; otherwise
best-effort stop of every node, clear the set, and reset the watermark
to the current playback clock.  The error branch of the match models an
exception escaping the loop and skipping the clear; it is proved
unreachable (stopNodesCaught never errors). -/
def stopAllAudio (now : ℚ) (st : ServiceState) : ServiceState :=
  if st.outputCtx = false then st
  else
    match stopNodesCaught st.sourceNodes with
    | Except.ok _ => { st with sourceNodes := [], nextStartTime := now }
    | Except.error _ => st

/-! ## Inbound message handling (handleMessage, lines 259-325) -/

/-- One LiveServerMessage as the service reads it: the functionCalls of
a toolCall part, the serverContent.interrupted flag, and the inline
audio payload of the first modelTurn part, already decoded to a Buffer. -/
structure ServerMessage where
  toolCalls : List FunctionCall
  interrupted : Bool
  audio : Option Buffer
deriving DecidableEq, Repr

/-- The interruption branch of handleMessage: stopAllAudio, clear the
speaking flag, report LISTENING, and return from the handler. -/
def onInterrupted (now : ℚ) (st : ServiceState) : ServiceState :=
  let st1 := stopAllAudio now st
  { st1 with isAgentSpeaking := false, status := VoiceState.LISTENING }

/-- handleMessage: first the tool-call loop (a throw there aborts the
whole handler, leaving the state untouched), then the interruption
branch (which returns early, discarding any audio in the same message),
then the audio branch, which marks the agent as speaking and reports
SPEAKING before scheduling the decoded buffer.  Returns the new state,
the tool responses sent, and whether an exception escaped. -/
def handleMessage (msg : ServerMessage) (now : ℚ) (env : CallbackEnv)
    (st : ServiceState) : ServiceState × List ToolResponse × Bool :=
  let p := handleToolCalls env msg.toolCalls
  if p.2 = true then (st, p.1, true)
  else if msg.interrupted = true then (onInterrupted now st, p.1, false)
  else
    match msg.audio with
    | some b =>
      ((playAudio now b { st with isAgentSpeaking := true,
                                  status := VoiceState.SPEAKING }).1, p.1, false)
    | none => (st, p.1, false)

/-! ## Session teardown and transport events -/

/-- The stop method: stopAllAudio, disconnect the input source and the
processor, close both audio contexts, report ENDED.  No call on the
session itself and no stop of the getUserMedia tracks appears in the
source, so transportOpen and micLive are left as they were. -/
def stop (now : ℚ) (st : ServiceState) : ServiceState :=
  let st1 := stopAllAudio now st
  { st1 with inputConnected := false, inputCtxOpen := false,
             outputCtxOpen := false, status := VoiceState.ENDED }

/-- The onerror transport callback: the source only reports ERROR; no
resource is torn down. -/
def onErrorEvent (st : ServiceState) : ServiceState :=
  { st with status := VoiceState.ERROR }

/-- The onclose transport callback: the peer closed the connection and
the source reports ENDED; nothing else is torn down. -/
def onCloseEvent (st : ServiceState) : ServiceState :=
  { st with status := VoiceState.ENDED, transportOpen := false }

/-! ## Concrete states and inputs used by counterexamples and witnesses -/

/-- A freshly connected session: handshake succeeded, LISTENING, both
contexts open, nothing scheduled. -/
def listeningSt : ServiceState :=
  ⟨0, [], false, none, VoiceState.LISTENING, 0, true, true, true, true, true, true⟩

/-- A session in the middle of agent speech: one scheduled unit, a
watermark of 5 seconds, watchdog armed. -/
def runningSt : ServiceState :=
  ⟨5, [⟨0, 2, false⟩], true, some ⟨0, 3000⟩, VoiceState.SPEAKING, 1,
   true, true, true, true, true, true⟩

/-- A session whose watermark (10 s) is ahead of the playback clock. -/
def aheadSt : ServiceState := { listeningSt with nextStartTime := 10 }

/-- The state right after the onerror callback fired on a live session. -/
def errSt : ServiceState := onErrorEvent listeningSt

/-- A tool call whose name matches neither registered handler. -/
def fcUnknown : FunctionCall := ⟨"42", "transferCall", ⟨"sms", "555-0100"⟩⟩

/-- Callbacks that never throw. -/
def env0 : CallbackEnv := ⟨false, false⟩

/-- An inbound message carrying only an audio payload of 2 seconds. -/
def audioMsg : ServerMessage := ⟨[], false, some ⟨2, false⟩⟩

/-- The response the dispatch sends for a recognized call: the fixed
acknowledgement string for logInteraction, the success string built from
the arguments for sendPortalLink. -/
def answerOf (fc : FunctionCall) : ToolResponse :=
  if fc.name = "logInteraction" then ⟨fc.id, fc.name, "Interaction logged."⟩
  else ⟨fc.id, fc.name,
    "Success. Link sent to " ++ fc.args.destination ++ " via " ++ fc.args.method⟩

/-! ## Helper lemmas -/

/-- The try/catch around each node.stop call swallows every error: the
best-effort loop never lets an exception escape. -/
lemma stopNodesCaught_ok (ns : List Node) : stopNodesCaught ns = Except.ok () := by
  induction ns with
  | nil => rfl
  | cons n rest ih =>
    unfold stopNodesCaught
    cases h : stopNode n <;> simp [ih]

/-- The watermark bump in playAudio is a maximum. -/
lemma if_lt_eq_max (a b : ℚ) : (if a < b then b else a) = max a b := by
  rcases lt_or_le a b with h | h
  · rw [if_pos h, max_eq_right h.le]
  · rw [if_neg (not_lt.mpr h), max_eq_left h]

/-- playAudio never touches the outputCtx field. -/
lemma playAudio_outputCtx (now : ℚ) (b : Buffer) (st : ServiceState) :
    ((playAudio now b st).1).outputCtx = st.outputCtx := by
  unfold playAudio
  split <;> rfl

/-- With a live output context, stopAllAudio clears the node set and
resets the watermark to the given clock value. -/
lemma stopAllAudio_of_ctx (now : ℚ) (st : ServiceState)
    (hctx : st.outputCtx = true) :
    stopAllAudio now st = { st with sourceNodes := [], nextStartTime := now } := by
  simp [stopAllAudio, hctx, stopNodesCaught_ok]

/-- The response built for a recognized call carries the id of the call. -/
lemma answerOf_id (fc : FunctionCall) : (answerOf fc).id = fc.id := by
  unfold answerOf
  split <;> rfl

/-- When the node whose completion is observed is the last one in the
set, handleEnded clears the set, the speaking flag and the watchdog and
reports LISTENING. -/
lemma handleEnded_of_last (nid : Nat) (st : ServiceState)
    (hlast : st.sourceNodes.filter (fun n => n.id ≠ nid) = []) :
    handleEnded nid st =
      { st with sourceNodes := [], isAgentSpeaking := false,
                speakingWatchdog := none, status := VoiceState.LISTENING } := by
  simp only [handleEnded]
  rw [hlast]
  simp

/-- Unfolding of playAudio when the output context is live. -/
lemma playAudio_of_ctx (now : ℚ) (b : Buffer) (st : ServiceState)
    (hctx : st.outputCtx = true) :
    playAudio now b st =
      ({ st with
          speakingWatchdog := some ⟨st.nextNodeId, b.duration * 1000 + 1000⟩,
          sourceNodes := st.sourceNodes ++ [⟨st.nextNodeId, b.duration, b.stopFails⟩],
          nextNodeId := st.nextNodeId + 1,
          nextStartTime := max st.nextStartTime now + b.duration },
       some (max st.nextStartTime now)) := by
  simp [playAudio, hctx, if_lt_eq_max]

/-- Invariant of a playAudio run: the emitted (start, duration) pairs
are chained back-to-back, and the first start is at or after the
incoming watermark. -/
lemma playSeq_spec (frames : List (ℚ × Buffer)) :
    ∀ st : ServiceState, st.outputCtx = true →
    (∀ p ∈ frames, 0 ≤ p.2.duration) →
    List.Chain' (fun a c => a.1 + a.2 ≤ c.1 ∧ a.1 ≤ c.1) (playSeq st frames).2 ∧
    ∀ p ∈ ((playSeq st frames).2).head?, st.nextStartTime ≤ p.1 := by
  induction frames with
  | nil =>
    intro st _ _
    refine ⟨by simp [playSeq], ?_⟩
    intro p hp
    simp [playSeq] at hp
  | cons f rest ih =>
    obtain ⟨now, b⟩ := f
    intro st hctx hd
    have hdur : 0 ≤ b.duration := hd (now, b) (List.mem_cons_self _ _)
    have hrest : ∀ p ∈ rest, 0 ≤ p.2.duration :=
      fun p hp => hd p (List.mem_cons_of_mem _ hp)
    have hplay := playAudio_of_ctx now b st hctx
    have hctx1 : ((playAudio now b st).1).outputCtx = true := by
      rw [playAudio_outputCtx]; exact hctx
    have hnext : ((playAudio now b st).1).nextStartTime = max st.nextStartTime now + b.duration := by
      rw [hplay]
    obtain ⟨ihchain, ihhead⟩ := ih ((playAudio now b st).1) hctx1 hrest
    have hseq : playSeq st ((now, b) :: rest) =
        ((playSeq (playAudio now b st).1 rest).1,
         (max st.nextStartTime now, b.duration) :: (playSeq (playAudio now b st).1 rest).2) := by
      conv_lhs => rw [playSeq]
      rw [hplay]
      simp
    rw [hseq]
    constructor
    · rw [List.chain'_cons']
      refine ⟨?_, ihchain⟩
      intro y hy
      have h1 := ihhead y hy
      rw [hnext] at h1
      exact ⟨h1, le_trans (le_add_of_nonneg_right hdur) h1⟩
    · intro p hp
      simp only [List.head?_cons, Option.mem_def, Option.some.injEq] at hp
      subst hp
      exact le_max_left _ _

/-! ## Claim theorems -/

/-- C1: when the agent-speaking flag is set at the moment a captured
frame is processed, every sample of the frame handed downstream to the
transport is zero, while the loudness value reported for that frame is
computed from the original un-zeroed samples (it coincides with the
report for the same frame without ducking), and one loudness report is
issued per captured frame whether or not the frame is ducked. -/
theorem ducking_mutes_sent_frame_metric_unducked
    (s : Bool) (f : List ℚ) (frames : List (Bool × List ℚ)) (hs : s = true) :
    (∀ x ∈ (onaudioprocess s f).2, x = 0) ∧
    (onaudioprocess s f).1 = volumeOf f ∧
    (onaudioprocess s f).1 = (onaudioprocess false f).1 ∧
    (processFrames frames).length = frames.length := by
  subst hs
  refine ⟨?_, rfl, rfl, by simp [processFrames]⟩
  intro x hx
  simp [onaudioprocess, duckedFrame] at hx
  exact hx.2

/-- Witness for C1 at a concrete ducked frame. -/
theorem ducking_mutes_sent_frame_metric_unducked_witness :
    true = true ∧
    ((∀ x ∈ (onaudioprocess true [(1 : ℚ)/2, -1/3]).2, x = 0) ∧
     (onaudioprocess true [(1 : ℚ)/2, -1/3]).1 = volumeOf [(1 : ℚ)/2, -1/3] ∧
     (onaudioprocess true [(1 : ℚ)/2, -1/3]).1 = (onaudioprocess false [(1 : ℚ)/2, -1/3]).1 ∧
     (processFrames [(true, [(1 : ℚ)])]).length = [(true, [(1 : ℚ)])].length) :=
  ⟨rfl, ducking_mutes_sent_frame_metric_unducked true [(1 : ℚ)/2, -1/3]
          [(true, [(1 : ℚ)])] rfl⟩

/-- C9: for a frame with a non-zero sample count, the reported loudness
equals min(1, 5 times the root mean square of the samples), and that
value lies in the closed interval [0, 1]. -/
theorem loudness_metric_clamped_rms (f : List ℚ) (h : f ≠ []) :
    volumeOf f = min 1 (5 * rms f) ∧ 0 ≤ volumeOf f ∧ volumeOf f ≤ 1 := by
  refine ⟨by rw [volumeOf, mul_comm], ?_, min_le_left _ _⟩
  apply le_min zero_le_one
  have := Real.sqrt_nonneg ((sumSq f : ℝ) / (f.length : ℝ))
  rw [rms]
  nlinarith

/-- Witness for C9 at the one-sample frame [1]. -/
theorem loudness_metric_clamped_rms_witness :
    [(1 : ℚ)] ≠ [] ∧
    (volumeOf [(1 : ℚ)] = min 1 (5 * rms [(1 : ℚ)]) ∧
     0 ≤ volumeOf [(1 : ℚ)] ∧ volumeOf [(1 : ℚ)] ≤ 1) :=
  ⟨by decide, loudness_metric_clamped_rms [(1 : ℚ)] (by decide)⟩

/-- C2: each playAudio call schedules its unit at the maximum of the
nextStart watermark and the current playback clock and then advances
the watermark by exactly the buffer duration; over any run of calls
with non-negative durations the scheduled starts are non-decreasing and
the units are non-overlapping (each start is at or after the previous
start plus the previous duration). -/
theorem playback_schedule_contiguous (st : ServiceState) (now : ℚ) (b : Buffer)
    (frames : List (ℚ × Buffer)) (hctx : st.outputCtx = true)
    (hd : ∀ p ∈ frames, 0 ≤ p.2.duration) :
    (playAudio now b st).2 = some (max st.nextStartTime now) ∧
    ((playAudio now b st).1).nextStartTime = max st.nextStartTime now + b.duration ∧
    List.Chain' (fun a c => a.1 + a.2 ≤ c.1 ∧ a.1 ≤ c.1) (playSeq st frames).2 := by
  have hplay := playAudio_of_ctx now b st hctx
  refine ⟨by rw [hplay], by rw [hplay], (playSeq_spec frames st hctx hd).1⟩

/-- Witness for C2: two frames of 1 s and 2 s scheduled on a fresh
session. -/
theorem playback_schedule_contiguous_witness :
    listeningSt.outputCtx = true ∧
    (∀ p ∈ [((0 : ℚ), Buffer.mk 1 false), ((0 : ℚ), Buffer.mk 2 false)], 0 ≤ p.2.duration) ∧
    ((playAudio 0 (Buffer.mk 1 false) listeningSt).2 = some (max listeningSt.nextStartTime 0) ∧
     ((playAudio 0 (Buffer.mk 1 false) listeningSt).1).nextStartTime =
       max listeningSt.nextStartTime 0 + (Buffer.mk 1 false).duration ∧
     List.Chain' (fun a c => a.1 + a.2 ≤ c.1 ∧ a.1 ≤ c.1)
       (playSeq listeningSt [((0 : ℚ), Buffer.mk 1 false), ((0 : ℚ), Buffer.mk 2 false)]).2) :=
  ⟨rfl, by decide,
   playback_schedule_contiguous listeningSt 0 (Buffer.mk 1 false)
     [((0 : ℚ), Buffer.mk 1 false), ((0 : ℚ), Buffer.mk 2 false)] rfl (by decide)⟩

/-- C4: an interruption signal, from any state with a live output
context, leaves zero playback units scheduled, resets the watermark to
the current playback clock, clears the speaking flag and reports
LISTENING; the cancellation is idempotent, the best-effort per-node
stop loop never lets an exception escape regardless of which node stop
calls fail, and the interruption branch of handleMessage lands exactly
in this state. -/
theorem interruption_cancels_all (st : ServiceState) (now : ℚ) (env : CallbackEnv)
    (a : Option Buffer) (hctx : st.outputCtx = true) :
    (onInterrupted now st).sourceNodes = [] ∧
    (onInterrupted now st).nextStartTime = now ∧
    (onInterrupted now st).status = VoiceState.LISTENING ∧
    (onInterrupted now st).isAgentSpeaking = false ∧
    onInterrupted now (onInterrupted now st) = onInterrupted now st ∧
    (∀ ns : List Node, stopNodesCaught ns = Except.ok ()) ∧
    handleMessage ⟨[], true, a⟩ now env st = (onInterrupted now st, [], false) := by
  have hs := stopAllAudio_of_ctx now st hctx
  refine ⟨by simp [onInterrupted, hs], by simp [onInterrupted, hs],
          by simp [onInterrupted], by simp [onInterrupted], ?_,
          stopNodesCaught_ok, rfl⟩
  simp [onInterrupted, stopAllAudio_of_ctx, hctx]

/-- Witness for C4 on a session with one scheduled unit. -/
theorem interruption_cancels_all_witness :
    runningSt.outputCtx = true ∧
    ((onInterrupted 7 runningSt).sourceNodes = [] ∧
     (onInterrupted 7 runningSt).nextStartTime = 7 ∧
     (onInterrupted 7 runningSt).status = VoiceState.LISTENING ∧
     (onInterrupted 7 runningSt).isAgentSpeaking = false ∧
     onInterrupted 7 (onInterrupted 7 runningSt) = onInterrupted 7 runningSt ∧
     (∀ ns : List Node, stopNodesCaught ns = Except.ok ()) ∧
     handleMessage ⟨[], true, none⟩ 7 env0 runningSt = (onInterrupted 7 runningSt, [], false)) :=
  ⟨rfl, interruption_cancels_all runningSt 7 env0 none rfl⟩

/-- C10: a message that carries both an interruption signal and an
audio payload is handled exactly like the same message without the
payload: the handler returns right after cancelling playback and
reporting LISTENING, so the bundled audio is never scheduled and no
unit remains. -/
theorem interrupt_discards_bundled_audio (st : ServiceState) (now : ℚ)
    (env : CallbackEnv) (b : Buffer) (hctx : st.outputCtx = true) :
    handleMessage ⟨[], true, some b⟩ now env st = handleMessage ⟨[], true, none⟩ now env st ∧
    ((handleMessage ⟨[], true, some b⟩ now env st).1).sourceNodes = [] ∧
    ((handleMessage ⟨[], true, some b⟩ now env st).1).status = VoiceState.LISTENING := by
  have hs := stopAllAudio_of_ctx now st hctx
  refine ⟨rfl, ?_, ?_⟩ <;>
    simp [handleMessage, handleToolCalls, onInterrupted, hs]

/-- Witness for C10: a 2 s payload bundled with an interruption on a
speaking session is dropped. -/
theorem interrupt_discards_bundled_audio_witness :
    runningSt.outputCtx = true ∧
    (handleMessage ⟨[], true, some (Buffer.mk 2 false)⟩ 7 env0 runningSt =
       handleMessage ⟨[], true, none⟩ 7 env0 runningSt ∧
     ((handleMessage ⟨[], true, some (Buffer.mk 2 false)⟩ 7 env0 runningSt).1).sourceNodes = [] ∧
     ((handleMessage ⟨[], true, some (Buffer.mk 2 false)⟩ 7 env0 runningSt).1).status =
       VoiceState.LISTENING) :=
  ⟨rfl, interrupt_discards_bundled_audio runningSt 7 env0 (Buffer.mk 2 false) rfl⟩

/-- C3 counterexample: the claim that every ToolCallRequest receives
exactly one correlated ToolCallResult regardless of the requested
function name fails on the code: a single request named transferCall
(matching neither registered handler) produces zero responses and is
silently dropped. -/
theorem toolcall_unknown_name_dropped_cx :
    ¬ ∀ fc ∈ [fcUnknown],
        (((handleToolCalls env0 [fcUnknown]).1.filter (fun r => r.id = fc.id)).length = 1) := by
  decide

/-- C3 amended: a ToolCallRequest whose name is one of the two
registered handlers receives exactly one ToolCallResult carrying its
correlation id, provided the injected side-effect callback returns
normally; a request with an unrecognized name falls through both
branches and gets no response, and a throwing callback raises before
the response is scheduled, so that call produces an error instead of an
error-shaped result. -/
theorem toolcalls_registered_answered (env env2 : CallbackEnv)
    (calls : List FunctionCall)
    (hn : ∀ fc ∈ calls, fc.name = "logInteraction" ∨ fc.name = "sendPortalLink")
    (hl : env.logCbFails = false) (hs : env.sendLinkCbFails = false) :
    handleToolCalls env calls = (calls.map answerOf, false) ∧
    (calls.map answerOf).map (fun r => r.id) = calls.map (fun fc => fc.id) ∧
    (∀ fc : FunctionCall, fc.name ≠ "logInteraction" → fc.name ≠ "sendPortalLink" →
      handleOne env2 fc = Except.ok none) ∧
    (∀ fc : FunctionCall, fc.name = "logInteraction" → env2.logCbFails = true →
      handleOne env2 fc = Except.error ()) := by
  refine ⟨?_, ?_, ?_, ?_⟩
  · induction calls with
    | nil => rfl
    | cons fc rest ih =>
      have hone : handleOne env fc = Except.ok (some (answerOf fc)) := by
        rcases hn fc (List.mem_cons_self _ _) with h | h <;>
          simp [handleOne, answerOf, h, hl, hs]
      have hrest := ih (fun p hp => hn p (List.mem_cons_of_mem _ hp))
      simp [handleToolCalls, hone, hrest]
  · rw [List.map_map]
    exact List.map_congr_left (fun fc _ => answerOf_id fc)
  · intro fc h1 h2
    simp [handleOne, h1, h2]
  · intro fc h1 h2
    simp [handleOne, h1, h2]

/-- Witness for the amended C3: one logInteraction call and one
sendPortalLink call both answered, with a throwing environment shown on
the side. -/
theorem toolcalls_registered_answered_witness :
    (∀ fc ∈ [FunctionCall.mk "1" "logInteraction" ⟨"", ""⟩,
             FunctionCall.mk "2" "sendPortalLink" ⟨"sms", "555-0100"⟩],
       fc.name = "logInteraction" ∨ fc.name = "sendPortalLink") ∧
    env0.logCbFails = false ∧ env0.sendLinkCbFails = false ∧
    (handleToolCalls env0 [FunctionCall.mk "1" "logInteraction" ⟨"", ""⟩,
                           FunctionCall.mk "2" "sendPortalLink" ⟨"sms", "555-0100"⟩] =
       ([FunctionCall.mk "1" "logInteraction" ⟨"", ""⟩,
         FunctionCall.mk "2" "sendPortalLink" ⟨"sms", "555-0100"⟩].map answerOf, false) ∧
     ([FunctionCall.mk "1" "logInteraction" ⟨"", ""⟩,
       FunctionCall.mk "2" "sendPortalLink" ⟨"sms", "555-0100"⟩].map answerOf).map
         (fun r => r.id) =
       [FunctionCall.mk "1" "logInteraction" ⟨"", ""⟩,
        FunctionCall.mk "2" "sendPortalLink" ⟨"sms", "555-0100"⟩].map (fun fc => fc.id) ∧
     (∀ fc : FunctionCall, fc.name ≠ "logInteraction" → fc.name ≠ "sendPortalLink" →
       handleOne (CallbackEnv.mk true false) fc = Except.ok none) ∧
     (∀ fc : FunctionCall, fc.name = "logInteraction" → (CallbackEnv.mk true false).logCbFails = true →
       handleOne (CallbackEnv.mk true false) fc = Except.error ())) :=
  ⟨by decide, rfl, rfl,
   toolcalls_registered_answered env0 (CallbackEnv.mk true false)
     [FunctionCall.mk "1" "logInteraction" ⟨"", ""⟩,
      FunctionCall.mk "2" "sendPortalLink" ⟨"sms", "555-0100"⟩]
     (by decide) rfl rfl⟩

/-- C5 counterexample: stop never calls close on the live session and
never stops the getUserMedia tracks, so after stop on a running session
the transport connection is still open and the capture device is still
held, contradicting the claim that stop closes the transport and
releases the capture device. -/
theorem stop_claim_fails_cx :
    (stop 7 runningSt).transportOpen = true ∧ (stop 7 runningSt).micLive = true := by
  decide

/-- C5 amended: stop is safe from every TurnState and idempotent; after
it returns the processor is disconnected so no frame is produced or
sent, no playback unit remains scheduled, both audio contexts are
closed and ENDED is reported — but the transport connection is not
closed and the capture device is not released. -/
theorem stop_halts_capture_and_playback (st : ServiceState) (now : ℚ)
    (h : st.outputCtx = true ∨ st.sourceNodes = []) :
    (stop now st).sourceNodes = [] ∧
    (stop now st).inputConnected = false ∧
    (∀ f, captureSend (stop now st) f = none) ∧
    (stop now st).inputCtxOpen = false ∧
    (stop now st).outputCtxOpen = false ∧
    (stop now st).status = VoiceState.ENDED ∧
    (stop now st).transportOpen = st.transportOpen ∧
    (stop now st).micLive = st.micLive ∧
    stop now (stop now st) = stop now st := by
  by_cases hctx : st.outputCtx = true
  · have hs := stopAllAudio_of_ctx now st hctx
    refine ⟨by simp [stop, hs], by simp [stop], by intro f; simp [captureSend, stop],
            by simp [stop], by simp [stop], by simp [stop],
            by simp [stop, hs], by simp [stop, hs], ?_⟩
    simp [stop, stopAllAudio_of_ctx, hctx, hs]
  · have hn : st.sourceNodes = [] := by
      rcases h with h | h
      · exact absurd h hctx
      · exact h
    have hb : st.outputCtx = false := by
      cases hc : st.outputCtx
      · rfl
      · exact absurd hc hctx
    have hs : stopAllAudio now st = st := by simp [stopAllAudio, hb]
    refine ⟨by simp [stop, hs, hn], by simp [stop], by intro f; simp [captureSend, stop],
            by simp [stop], by simp [stop], by simp [stop],
            by simp [stop, hs], by simp [stop, hs], ?_⟩
    simp [stop, stopAllAudio, hb]

/-- Witness for the amended C5 on a running session. -/
theorem stop_halts_capture_and_playback_witness :
    (runningSt.outputCtx = true ∨ runningSt.sourceNodes = []) ∧
    ((stop 7 runningSt).sourceNodes = [] ∧
     (stop 7 runningSt).inputConnected = false ∧
     (∀ f, captureSend (stop 7 runningSt) f = none) ∧
     (stop 7 runningSt).inputCtxOpen = false ∧
     (stop 7 runningSt).outputCtxOpen = false ∧
     (stop 7 runningSt).status = VoiceState.ENDED ∧
     (stop 7 runningSt).transportOpen = runningSt.transportOpen ∧
     (stop 7 runningSt).micLive = runningSt.micLive ∧
     stop 7 (stop 7 runningSt) = stop 7 runningSt) :=
  ⟨Or.inl rfl, stop_halts_capture_and_playback runningSt 7 (Or.inl rfl)⟩

/-- C6 counterexample: after the onerror callback has reported ERROR,
an inbound audio message is still decoded and scheduled (the node set
grows and the status flips to SPEAKING) and a captured frame is still
forwarded to the transport, so ERROR is not terminal in the code. -/
theorem error_state_not_terminal_cx :
    errSt.status = VoiceState.ERROR ∧
    ((handleMessage audioMsg 0 env0 errSt).1).sourceNodes.length = 1 ∧
    ((handleMessage audioMsg 0 env0 errSt).1).status = VoiceState.SPEAKING ∧
    captureSend errSt [1] = some [1] := by
  decide

/-- C6 amended: ERROR and ENDED are reported statuses, not enforced
terminal states: the capture handler never consults the status, so
frames are still forwarded while the processor is connected, and an
inbound audio payload arriving after ERROR or ENDED is still scheduled
for playback, growing the node set by one and flipping the status to
SPEAKING. -/
theorem error_ended_statuses_not_enforced (st : ServiceState) (f : List ℚ)
    (now : ℚ) (env : CallbackEnv) (b : Buffer)
    (hterm : st.status = VoiceState.ERROR ∨ st.status = VoiceState.ENDED)
    (hin : st.inputConnected = true) (hopen : st.inputCtxOpen = true)
    (hctx : st.outputCtx = true) :
    captureSend st f = some (duckedFrame st.isAgentSpeaking f) ∧
    ((handleMessage ⟨[], false, some b⟩ now env st).1).status = VoiceState.SPEAKING ∧
    ((handleMessage ⟨[], false, some b⟩ now env st).1).sourceNodes.length =
      st.sourceNodes.length + 1 := by
  refine ⟨by simp [captureSend, hin, hopen], ?_, ?_⟩ <;>
    simp [handleMessage, handleToolCalls, playAudio_of_ctx, hctx]

/-- Witness for the amended C6 after a transport error. -/
theorem error_ended_statuses_not_enforced_witness :
    (errSt.status = VoiceState.ERROR ∨ errSt.status = VoiceState.ENDED) ∧
    errSt.inputConnected = true ∧ errSt.inputCtxOpen = true ∧ errSt.outputCtx = true ∧
    (captureSend errSt [(1 : ℚ)] = some (duckedFrame errSt.isAgentSpeaking [(1 : ℚ)]) ∧
     ((handleMessage ⟨[], false, some (Buffer.mk 2 false)⟩ 0 env0 errSt).1).status =
       VoiceState.SPEAKING ∧
     ((handleMessage ⟨[], false, some (Buffer.mk 2 false)⟩ 0 env0 errSt).1).sourceNodes.length =
       errSt.sourceNodes.length + 1) :=
  ⟨Or.inl rfl, rfl, rfl, rfl,
   error_ended_statuses_not_enforced errSt [(1 : ℚ)] 0 env0 (Buffer.mk 2 false)
     (Or.inl rfl) rfl rfl rfl⟩

/-- C7: scheduling a unit arms the watchdog with a timeout of
duration*1000 + 1000 milliseconds, strictly longer than the unit
duration in milliseconds; when the timeout fires while the session
still believes the agent is speaking, the state is forced back to
LISTENING; and when the real completion of the last outstanding unit is
observed, the watchdog is disarmed, so real completion remains the
primary signal. -/
theorem watchdog_lifecycle (st st2 st3 : ServiceState) (now : ℚ) (b : Buffer)
    (nid : Nat) (hctx : st.outputCtx = true)
    (hsp : st2.isAgentSpeaking = true)
    (hlast : st3.sourceNodes.filter (fun n => n.id ≠ nid) = []) :
    ((playAudio now b st).1).speakingWatchdog =
      some ⟨st.nextNodeId, b.duration * 1000 + 1000⟩ ∧
    b.duration * 1000 < b.duration * 1000 + 1000 ∧
    (watchdogFire st2).isAgentSpeaking = false ∧
    (watchdogFire st2).status = VoiceState.LISTENING ∧
    (handleEnded nid st3).speakingWatchdog = none ∧
    (handleEnded nid st3).sourceNodes = [] ∧
    (handleEnded nid st3).isAgentSpeaking = false ∧
    (handleEnded nid st3).status = VoiceState.LISTENING := by
  refine ⟨by simp [playAudio_of_ctx, hctx], by linarith,
          by simp [watchdogFire, hsp], by simp [watchdogFire, hsp],
          ?_, ?_, ?_, ?_⟩ <;> simp [handleEnded_of_last nid st3 hlast]

/-- Witness for C7: arming on a fresh session, firing while speaking,
and disarming on the completion of the only outstanding unit. -/
theorem watchdog_lifecycle_witness :
    listeningSt.outputCtx = true ∧
    runningSt.isAgentSpeaking = true ∧
    runningSt.sourceNodes.filter (fun n => n.id ≠ 0) = [] ∧
    (((playAudio 0 (Buffer.mk 2 false) listeningSt).1).speakingWatchdog =
       some ⟨listeningSt.nextNodeId, (Buffer.mk 2 false).duration * 1000 + 1000⟩ ∧
     (Buffer.mk 2 false).duration * 1000 < (Buffer.mk 2 false).duration * 1000 + 1000 ∧
     (watchdogFire runningSt).isAgentSpeaking = false ∧
     (watchdogFire runningSt).status = VoiceState.LISTENING ∧
     (handleEnded 0 runningSt).speakingWatchdog = none ∧
     (handleEnded 0 runningSt).sourceNodes = [] ∧
     (handleEnded 0 runningSt).isAgentSpeaking = false ∧
     (handleEnded 0 runningSt).status = VoiceState.LISTENING) :=
  ⟨rfl, rfl, by decide,
   watchdog_lifecycle listeningSt runningSt runningSt 0 (Buffer.mk 2 false) 0
     rfl rfl (by decide)⟩

/-- C8 counterexample: with the watermark at 10 s and the playback
clock at 3 s, an interruption (stopAllAudio) resets the watermark to
the clock and so strictly decreases it, refuting the claim that no
operation of the service ever decreases the watermark. -/
theorem watermark_decreases_on_interrupt_cx :
    (stopAllAudio 3 aheadSt).nextStartTime < aheadSt.nextStartTime := by
  decide

/-- C8 amended: the watermark never decreases under scheduling (a
playAudio call with a non-negative buffer duration only moves it
forward), but stopAllAudio — reached from the interruption branch and
from stop — resets it to the current playback clock, which may be
strictly below its previous value when playback is scheduled ahead. -/
theorem watermark_monotone_under_scheduling (st : ServiceState) (now : ℚ)
    (b : Buffer) (hd : 0 ≤ b.duration) :
    st.nextStartTime ≤ ((playAudio now b st).1).nextStartTime ∧
    (st.outputCtx = true → (stopAllAudio now st).nextStartTime = now) := by
  constructor
  · by_cases hctx : st.outputCtx = true
    · rw [playAudio_of_ctx now b st hctx]
      calc st.nextStartTime ≤ max st.nextStartTime now := le_max_left _ _
        _ ≤ max st.nextStartTime now + b.duration := le_add_of_nonneg_right hd
    · have hb : st.outputCtx = false := by
        cases hc : st.outputCtx
        · rfl
        · exact absurd hc hctx
      simp [playAudio, hb]
  · intro hctx
    rw [stopAllAudio_of_ctx now st hctx]

/-- Witness for the amended C8 on a session whose watermark is ahead of
the clock. -/
theorem watermark_monotone_under_scheduling_witness :
    (0 : ℚ) ≤ (Buffer.mk 2 false).duration ∧
    (aheadSt.nextStartTime ≤ ((playAudio 3 (Buffer.mk 2 false) aheadSt).1).nextStartTime ∧
     (aheadSt.outputCtx = true → (stopAllAudio 3 aheadSt).nextStartTime = 3)) :=
  ⟨by decide, watermark_monotone_under_scheduling aheadSt 3 (Buffer.mk 2 false) (by decide)⟩

end GeminiLive
